import Mathlib

set_option maxRecDepth 100000
set_option maxHeartbeats 1000000

/-!
Shallow embedding of the fusion-and-scoring pipeline of the
ai-ddr-report-generator repository (src/merger.py, src/temperature_analysis.py,
src/clustering.py, src/urgency.py, src/confidence.py).

Python dict-based observations are embedded as the `Obs` structure; an absent
key and a stored `None` are both represented by `""` for plain string fields
and by `none` for optional fields.  Python floats are embedded as exact
rationals: every comparison the code performs on the reachable values
(word-overlap ratios with denominator at most a few dozen against the literal
0.3, and temperature medians of decimal inputs against a 5.0 threshold) is
decided identically by exact rationals and by IEEE doubles, since the rational
gap at those denominators exceeds the double rounding error by many orders of
magnitude.  Strings in all claim-relevant inputs are ASCII; Python `.strip()`
is embedded as `pyStrip`, `.lower()` as `String.toLower`, `x in y` on strings
as `strIn`, and `str.split()` as a whitespace split dropping empty pieces.
-/

/-- ASCII whitespace of Python `str.strip` / `str.split()`. -/
def isPyWs (c : Char) : Bool :=
  c = ' ' || c = '\t' || c = '\n' || c = '\r' || c = '\x0b' || c = '\x0c'

/-- Python `str.strip()` on a character list. -/
def trimCharsL (l : List Char) : List Char :=
  ((l.dropWhile isPyWs).reverse.dropWhile isPyWs).reverse

/-- Python `str.strip()`. -/
def pyStrip (s : String) : String := String.mk (trimCharsL s.toList)

/-- First-seen-order deduplication, the behaviour of Python `dict.fromkeys`
and of membership-guarded appends. -/
def dedupFS {α : Type} [DecidableEq α] (l : List α) : List α :=
  l.foldl (fun acc x => if x ∈ acc then acc else acc ++ [x]) []

/-- Python `str.split()` with no argument: split on whitespace runs. -/
def splitWordsRaw (s : String) : List String :=
  (s.split isPyWs).filter (fun w => w ≠ "")

/-- Python `set(s.split())`, as a duplicate-free list (only sizes and
membership are ever used). -/
def wordSet (s : String) : List String := dedupFS (splitWordsRaw s)

/-- Size of the intersection of two Python word sets. -/
def interCount (w1 w2 : List String) : ℕ :=
  (w1.filter (fun w => decide (w ∈ w2))).length

/-- Substring test on character lists (Python `needle in hay`). -/
def isSubChars (needle : List Char) : List Char → Bool
  | [] => needle.isEmpty
  | c :: rest => needle.isPrefixOf (c :: rest) || isSubChars needle rest

/-- Python `needle in hay` for strings. -/
def strIn (needle hay : String) : Bool := isSubChars needle.toList hay.toList

/-- Round to integer, ties to even: Python `round` (exact on the rationals
reached by the temperature pipeline in the verified scenarios). -/
def roundHalfEven (q : ℚ) : ℤ :=
  let n := ⌊q⌋
  if q - n < 1/2 then n
  else if 1/2 < q - n then n + 1
  else if n % 2 = 0 then n else n + 1

/-- Python `round(x, 2)`. -/
def round2 (q : ℚ) : ℚ := (roundHalfEven (q * 100) : ℚ) / 100

/-- An observation record (Python dict).  Core fields are set by the
extractor; the later annotation fields start absent (`none`). -/
structure Obs where
  area : String := ""
  description : String := ""
  issue_type : Option String := none
  source : String := ""
  cluster_id : Option String := none
  cluster_label : Option String := none
  urgency_score : Option ℤ := none
  urgency_reason : Option String := none
  confidence : Option ℚ := none
  confidence_reason : Option String := none
deriving DecidableEq, Inhabited

/-- A conflict record built by `merge_extractions` (src/merger.py lines
82-87); `ctype` embeds the Python key `"type"`. -/
structure Conflict where
  ctype : String
  observation_1 : Obs
  observation_2 : Obs
  message : String
deriving DecidableEq, Inhabited

/-- A raw temperature reading (src/temperature_analysis.py input dicts).
`value` is `none` when the Python value is `None`/missing. -/
structure TempReading where
  location : String := ""
  value : Option String := none
  unit : String := ""
deriving DecidableEq, Inhabited

/-- Per-document extraction result consumed by `merge_extractions`. -/
structure ExtractData where
  observations : List Obs := []
  temperatures : List TempReading := []
  severity_mentions : List String := []
  ambiguous : List String := []
  missing : List String := []
deriving DecidableEq, Inhabited

/-- `normalize_area` of src/merger.py lines 6-10. -/
def normalize_area (area : String) : String :=
  if pyStrip area = "" then "Area not specified" else (pyStrip area).toLower

/-- The comparison text of `observations_similar` (src/merger.py lines 19-20):
`(obs.get("issue_type") or obs.get("description", ""))[:50].lower()`. -/
def simKey (o : Obs) : String :=
  ((match o.issue_type with
    | some it => if it = "" then o.description else it
    | none => o.description).take 50).toLower

/-- The overlap ratio of src/merger.py line 27:
`len(words1 & words2) / max(len(words1), len(words2))` when both word sets
are non-empty, else 0. -/
def overlapRatio (t1 t2 : String) : ℚ :=
  if (wordSet t1).isEmpty || (wordSet t2).isEmpty then 0
  else (interCount (wordSet t1) (wordSet t2) : ℚ)
        / (max (wordSet t1).length (wordSet t2).length : ℚ)

/-- `observations_similar` of src/merger.py lines 13-28. -/
def observations_similar (o1 o2 : Obs) : Bool :=
  if normalize_area o1.area ≠ normalize_area o2.area then false
  else if simKey o1 = "" ∨ simKey o2 = "" then
    decide (normalize_area o1.area = normalize_area o2.area)
  else
    decide (overlapRatio (simKey o1) (simKey o2) > 3/10)
      || strIn (simKey o1) (simKey o2) || strIn (simKey o2) (simKey o1)

/-- The source-field combination step of `_merge_observations`
(src/merger.py lines 47-50). -/
def combineSource (srcSeenRaw srcNewRaw : String) : String :=
  if pyStrip srcNewRaw ≠ "" ∧ strIn (pyStrip srcNewRaw) (pyStrip srcSeenRaw) = false then
    (if pyStrip srcSeenRaw ≠ ""
     then pyStrip srcSeenRaw ++ "; " ++ pyStrip srcNewRaw
     else pyStrip srcNewRaw)
  else srcSeenRaw

/-- `_merge_observations` of src/merger.py lines 31-50, returning the updated
`seen` record instead of mutating it. -/
def merge_observations (seen new : Obs) : Obs :=
  let descSeen := pyStrip seen.description
  let descNew := pyStrip new.description
  let description :=
    if descNew ≠ "" ∧ descNew ≠ descSeen then
      (if descSeen ≠ "" then descSeen ++ ". Thermal/Inspection: " ++ descNew else descNew)
    else seen.description
  let itSeen := pyStrip (seen.issue_type.getD "")
  let itNew := pyStrip (new.issue_type.getD "")
  let issue_type :=
    if itNew ≠ "" then
      (if itSeen ≠ "" ∧ itNew.toLower ≠ itSeen.toLower then some (itSeen ++ "; " ++ itNew)
       else if itSeen = "" then some itNew
       else seen.issue_type)
    else seen.issue_type
  { seen with
      description := description
      issue_type := issue_type
      source := combineSource seen.source new.source }

/-- `_has_conflict` of src/merger.py lines 96-102. -/
def has_conflict (a b : Obs) : Bool :=
  if pyStrip a.description = "" ∨ pyStrip b.description = "" then false
  else
    decide (pyStrip a.description ≠ pyStrip b.description)
      && decide (interCount (wordSet (pyStrip a.description))
                            (wordSet (pyStrip b.description)) < 3)

/-- The conflict record appended at src/merger.py lines 82-87. -/
def mkConflict (seen obs : Obs) : Conflict :=
  { ctype := "observation"
    observation_1 := seen
    observation_2 := obs
    message := "Conflicting descriptions for same area — both recorded." }

/-- The mutable state of `add_observations`: the seen/canonical observation
list (aliased with `merged["observations"]` in the Python) and the conflict
list. -/
structure MergeState where
  seen : List Obs
  conflicts : List Conflict
deriving DecidableEq, Inhabited

/-- The inner `for seen in seen_observations` loop of `add_observations`
(src/merger.py lines 79-91): scan the seen list for the first similar entry;
on conflict leave the list unchanged and return the conflict record, otherwise
fold the new observation into the matched entry.  `none` means no similar
entry was found. -/
def scanSeen (obs : Obs) : List Obs → Option (List Obs × Option Conflict)
  | [] => none
  | s :: rest =>
    if observations_similar obs s then
      (if has_conflict obs s then some (s :: rest, some (mkConflict s obs))
       else some (merge_observations s obs :: rest, none))
    else
      match scanSeen obs rest with
      | some (l, c) => some (s :: l, c)
      | none => none

/-- One iteration of the outer loop of `add_observations` (src/merger.py
lines 74-94): overwrite the source with the document label, then dedup
against the seen list. -/
def addObs (label : String) (st : MergeState) (obs0 : Obs) : MergeState :=
  match scanSeen { obs0 with source := label } st.seen with
  | some (seen2, some c) => { seen := seen2, conflicts := st.conflicts ++ [c] }
  | some (seen2, none) => { seen := seen2, conflicts := st.conflicts }
  | none => { seen := st.seen ++ [{ obs0 with source := label }], conflicts := st.conflicts }

/-- `add_observations(data, source_label)` over a whole document
(src/merger.py lines 71-94). -/
def addAll (label : String) (st : MergeState) (obss : List Obs) : MergeState :=
  obss.foldl (addObs label) st

/-- The merged structure returned by `merge_extractions`. -/
structure MergedData where
  observations : List Obs
  temperatures : List TempReading
  severity_mentions : List String
  ambiguous : List String
  missing : List String
deriving DecidableEq, Inhabited

/-- `merge_extractions` of src/merger.py lines 53-133. -/
def merge_extractions (inspection_data thermal_data : Option ExtractData) :
    MergedData × List Conflict × List String :=
  let st1 := match inspection_data with
    | some d => addAll "Inspection Report" ⟨[], []⟩ d.observations
    | none => ⟨[], []⟩
  let st2 := match thermal_data with
    | some d => addAll "Thermal Report" st1 d.observations
    | none => st1
  let iData := inspection_data.getD {}
  let tData := thermal_data.getD {}
  let temps := iData.temperatures ++ tData.temperatures
  let sevs := dedupFS
    (((iData.severity_mentions ++ tData.severity_mentions).map pyStrip).filter (fun s => s ≠ ""))
  let ambiguous := dedupFS ((iData.ambiguous ++ tData.ambiguous).filter (fun s => s ≠ ""))
  let missing := dedupFS ((iData.missing ++ tData.missing).filter (fun s => s ≠ ""))
  (⟨st2.seen, temps, sevs, ambiguous, missing⟩, st2.conflicts, ambiguous ++ missing)

/-- Numeric value of a digit list (most significant first). -/
def digitsVal (l : List Char) : ℚ :=
  l.foldl (fun acc c => acc * 10 + ((c.toNat - '0'.toNat : ℕ) : ℚ)) 0

/-- Does the rest of the string match the regex `°[CFcf]?\s*$` starting
here?  (src/temperature_analysis.py line 18.) -/
def degreeSuffixFrom : List Char → Bool
  | '°' :: rest =>
    (match rest with
     | c :: rest2 => (c = 'C' || c = 'F' || c = 'c' || c = 'f') && rest2.all isPyWs
     | [] => false) || rest.all isPyWs
  | _ => false

/-- `re.sub` with the anchored pattern above: cut at the leftmost match
(every match of the pattern extends to the end of the string). -/
def stripDegreeList : List Char → List Char
  | [] => []
  | c :: rest => if degreeSuffixFrom (c :: rest) then [] else c :: stripDegreeList rest

/-- Longest prefix matching the range-endpoint regex `-?\d*\.?\d+`
(value and remaining characters).  Backtracking never needs a shorter match
here because the character after any shorter candidate is a digit or a dot,
which can never start the `\s*[–-]` that follows in the range pattern. -/
def matchEndpoint (l : List Char) : Option (ℚ × List Char) :=
  let neg := match l with | '-' :: _ => true | _ => false
  let l1 := match l with | '-' :: t => t | _ => l
  let d1 := l1.takeWhile Char.isDigit
  let r1 := l1.dropWhile Char.isDigit
  let sign : ℚ := if neg then -1 else 1
  match r1 with
  | '.' :: r2 =>
    let d2 := r2.takeWhile Char.isDigit
    let r3 := r2.dropWhile Char.isDigit
    if d2.isEmpty then
      (if d1.isEmpty then none else some (sign * digitsVal d1, r1))
    else some (sign * (digitsVal d1 + digitsVal d2 / 10 ^ d2.length), r3)
  | _ => if d1.isEmpty then none else some (sign * digitsVal d1, r1)

/-- Full-string match of the range pattern
`^(-?\d*\.?\d+)\s*[–\-]\s*(-?\d*\.?\d+)$` (src/temperature_analysis.py
line 21), returning both endpoints. -/
def matchRange (l : List Char) : Option (ℚ × ℚ) :=
  match matchEndpoint l with
  | none => none
  | some (v1, r1) =>
    match r1.dropWhile isPyWs with
    | [] => none
    | c :: r3 =>
      if c = '-' ∨ c = '–' then
        match matchEndpoint (r3.dropWhile isPyWs) with
        | none => none
        | some (v2, r5) => if r5.isEmpty then some (v1, v2) else none
      else none

/-- Match of `-?\d+\.?\d*` anchored at the start of the list. -/
def matchNumAt (l : List Char) : Option ℚ :=
  let neg := match l with | '-' :: _ => true | _ => false
  let l1 := match l with | '-' :: t => t | _ => l
  let d1 := l1.takeWhile Char.isDigit
  if d1.isEmpty then none
  else
    let r1 := l1.dropWhile Char.isDigit
    let d2 := match r1 with | '.' :: r2 => r2.takeWhile Char.isDigit | _ => []
    some ((if neg then (-1 : ℚ) else 1) * (digitsVal d1 + digitsVal d2 / 10 ^ d2.length))

/-- `re.search(r"-?\d+\.?\d*", s)`: first (leftmost) number in the string
(src/temperature_analysis.py line 27). -/
def searchNum : List Char → Option ℚ
  | [] => none
  | c :: rest =>
    match matchNumAt (c :: rest) with
    | some v => some v
    | none => searchNum rest

/-- `_parse_value` of src/temperature_analysis.py lines 10-30. -/
def parse_value (raw : Option String) : Option ℚ :=
  match raw with
  | none => none
  | some r =>
    if pyStrip r = "" then none
    else
      let l := trimCharsL (stripDegreeList (pyStrip r).toList)
      match matchRange l with
      | some p => some ((p.1 + p.2) / 2)
      | none => searchNum l

/-- Unit normalisation of src/temperature_analysis.py lines 35 and 43:
`unit.strip().upper().replace("°", "")` (the replace deletes the degree
sign). -/
def unitNorm (unit : String) : String :=
  String.mk (((pyStrip unit).toUpper).toList.filter (fun c => c ≠ '°'))

/-- Fahrenheit test: `"F" in u or "FAHRENHEIT" in u`. -/
def isFahrenheit (unit : String) : Bool :=
  strIn "F" (unitNorm unit) || strIn "FAHRENHEIT" (unitNorm unit)

/-- `_normalize_to_celsius` of src/temperature_analysis.py lines 33-38. -/
def normalize_to_celsius (v : ℚ) (unit : String) : ℚ :=
  if isFahrenheit unit then (v - 32) * 5 / 9 else v

/-- `_celsius_to_original` of src/temperature_analysis.py lines 41-46. -/
def celsius_to_original (v : ℚ) (unit : String) : ℚ :=
  if isFahrenheit unit then v * 9 / 5 + 32 else v

/-- The per-reading unit default `(t.get("unit") or "°C").strip() or "°C"`
(src/temperature_analysis.py line 69). -/
def effectiveUnit (unit : String) : String :=
  if pyStrip (if unit = "" then "°C" else unit) = "" then "°C"
  else pyStrip (if unit = "" then "°C" else unit)

/-- A reading that survived parsing (src/temperature_analysis.py lines
67-80). -/
structure ParsedReading where
  location : String
  value : ℚ
  unit : String
  value_c : ℚ
deriving DecidableEq, Inhabited

/-- The parse-and-normalise loop of `compute_temperature_analysis`
(src/temperature_analysis.py lines 65-80): unparseable readings are
dropped. -/
def parsedReadings (temps : List TempReading) : List ParsedReading :=
  temps.filterMap fun t =>
    match parse_value t.value with
    | none => none
    | some v =>
      some { location := t.location
             value := v
             unit := effectiveUnit t.unit
             value_c := normalize_to_celsius v (effectiveUnit t.unit) }

/-- The median computation of src/temperature_analysis.py lines 89-95 (sort;
odd count takes the middle element, even count averages the two middle
elements) — which is also exactly the reference-value formula of §4.2 of the
spec. -/
def medianValue (values : List ℚ) : ℚ :=
  let vs := values.mergeSort (fun a b => a ≤ b)
  if vs.length % 2 = 1 then vs.getD (vs.length / 2) 0
  else (vs.getD (vs.length / 2 - 1) 0 + vs.getD (vs.length / 2) 0) / 2

/-- One output reading of the temperature analysis. -/
structure TempOut where
  location : String
  value : ℚ
  unit : String
  delta : ℚ
  delta_c : ℚ
  anomaly : Bool
deriving DecidableEq, Inhabited

/-- The analysis structure returned by `compute_temperature_analysis`. -/
structure TempAnalysis where
  reference_value : Option ℚ
  reference_unit : Option String
  readings : List TempOut
deriving DecidableEq, Inhabited

/-- `compute_temperature_analysis` of src/temperature_analysis.py lines
49-120 (the empty-input early return and the all-unparseable return produce
the same value, so both are the `parsedReadings temps = []` branch here). -/
def compute_temperature_analysis (temps : List TempReading) (threshold : ℚ) :
    TempAnalysis :=
  let parsed := parsedReadings temps
  if parsed = [] then ⟨none, none, []⟩
  else
    let reference_c := medianValue (parsed.map (fun p => p.value_c))
    let first_unit := (parsed.headD default).unit
    ⟨some (round2 (celsius_to_original reference_c first_unit)),
     some first_unit,
     parsed.map fun p =>
       { location := p.location
         value := p.value
         unit := p.unit
         delta := round2 (celsius_to_original (reference_c + (p.value_c - reference_c)) p.unit
                           - celsius_to_original reference_c p.unit)
         delta_c := round2 (p.value_c - reference_c)
         anomaly := decide (|p.value_c - reference_c| > threshold) }⟩

/-- `_normalize` of src/clustering.py lines 6-10. -/
def cl_normalize (s : String) : String :=
  if pyStrip s = "" then "unspecified" else (pyStrip s).toLower

/-- The raw grouping text of src/clustering.py line 25:
`obs.get("issue_type") or obs.get("description", "")[:50]` (the slice applies
to the description only). -/
def clusterIssueRaw (o : Obs) : String :=
  match o.issue_type with
  | some it => if it = "" then o.description.take 50 else it
  | none => o.description.take 50

/-- The grouping key of src/clustering.py lines 24-26. -/
def clusterKey (o : Obs) : String :=
  cl_normalize o.area ++ "|" ++ cl_normalize (clusterIssueRaw o)

/-- A cluster record (src/clustering.py lines 42-46). -/
structure Cluster where
  cluster_id : String
  label : String
  observation_indices : List ℕ
deriving DecidableEq, Inhabited

/-- Label of a cluster: raw area and raw issue type (or "finding") of the
first member of the group (src/clustering.py lines 39-41). -/
def clusterLabelFor (obss : List Obs) (k : String) : String :=
  match obss.find? (fun o => decide (clusterKey o = k)) with
  | some o =>
    o.area ++ " – " ++
      (match o.issue_type with
       | some it => if it = "" then "finding" else it
       | none => "finding")
  | none => "Unknown – finding"

/-- `cluster_observations` of src/clustering.py lines 13-57.  The insertion-
ordered dict `key_to_indices` is embedded as the first-seen key list
`dedupFS` together with the per-key index groups; the per-index field
assignment of lines 48-55 becomes the map at the end. -/
def cluster_observations (obss : List Obs) : List Obs × List Cluster :=
  if obss = [] then ([], [])
  else
    let keys := dedupFS (obss.map clusterKey)
    let clusters := (List.range keys.length).map fun n =>
      { cluster_id := "cluster_" ++ toString (n + 1)
        label := clusterLabelFor obss (keys.getD n "")
        observation_indices :=
          (List.range obss.length).filter
            (fun i => decide (clusterKey (obss.getD i default) = keys.getD n "")) }
    let result := obss.map fun o =>
      { o with
          cluster_id :=
            some ("cluster_" ++ toString (keys.findIdx (fun k => decide (k = clusterKey o)) + 1))
          cluster_label := some (clusterLabelFor obss (clusterKey o)) }
    (result, clusters)

/-- `SEVERITY_KEYWORDS` of src/urgency.py lines 6-17 (insertion order
preserved; only the maximum over matches is used). -/
def SEVERITY_KEYWORDS : List (String × ℤ) :=
  [("critical", 2), ("severe", 2), ("immediate", 2), ("urgent", 1), ("high", 1),
   ("significant", 1), ("moderate", 0), ("low", -1), ("minor", -1), ("cosmetic", -1)]

/-- `ISSUE_TYPE_SCORE` of src/urgency.py lines 20-39 (insertion order is the
first-match priority order). -/
def ISSUE_TYPE_SCORE : List (String × ℤ) :=
  [("moisture", 4), ("water", 4), ("mold", 4), ("plumbing", 4), ("electrical", 4),
   ("structural", 4), ("safety", 5), ("heat loss", 3), ("insulation", 3), ("anomaly", 3),
   ("thermal", 3), ("damage", 3), ("crack", 2), ("leak", 4), ("defect", 2),
   ("cosmetic", 1), ("staining", 2), ("wear", 2)]

/-- `_normalize` of src/urgency.py lines 42-43. -/
def u_normalize (s : String) : String := (pyStrip s).toLower

/-- `_observation_urgency_from_severity` of src/urgency.py lines 46-58. -/
def urgency_from_severity (o : Obs) (severity_mentions : List String) : ℤ :=
  let desc := u_normalize o.description
  let sc1 := SEVERITY_KEYWORDS.foldl
    (fun sc p => if strIn p.1 desc then max sc p.2 else sc) 0
  let sc2 := severity_mentions.foldl
    (fun sc s =>
      SEVERITY_KEYWORDS.foldl
        (fun sc p => if strIn p.1 (u_normalize s) then max sc p.2 else sc) sc)
    sc1
  min 2 (max 0 sc2)

/-- `_observation_urgency_from_issue_type` of src/urgency.py lines 61-69:
first matching keyword in priority order, default 2. -/
def urgency_from_issue_type (o : Obs) : ℤ :=
  let text := u_normalize (o.issue_type.getD "") ++ " " ++ (u_normalize o.description).take 100
  match ISSUE_TYPE_SCORE.find? (fun p => strIn p.1 text) with
  | some p => p.2
  | none => 2

/-- `_location_matches_reading` of src/urgency.py lines 72-78. -/
def location_matches_reading (location area : String) : Bool :=
  if u_normalize location = "" ∨ u_normalize area = "" then false
  else strIn (u_normalize area) (u_normalize location)
        || strIn (u_normalize location) (u_normalize area)

/-- `_thermal_anomaly_boost` of src/urgency.py lines 81-93. -/
def thermal_anomaly_boost (o : Obs) (temperature_analysis : Option TempAnalysis) : ℤ :=
  match temperature_analysis with
  | none => 0
  | some ta =>
    if ta.readings.any (fun r =>
        r.anomaly && location_matches_reading r.location (u_normalize o.area))
    then 1 else 0

/-- `score_urgency` of src/urgency.py lines 96-122. -/
def score_urgency (observations : List Obs) (severity_mentions : List String)
    (temperature_analysis : Option TempAnalysis) : List Obs :=
  observations.map fun o =>
    let base := urgency_from_issue_type o
    let sev := urgency_from_severity o severity_mentions
    let thermal := thermal_anomaly_boost o temperature_analysis
    let reasons :=
      (if sev > 0 then ["severity keywords in report"] else []) ++
      (if thermal > 0 then ["thermal anomaly in area"] else []) ++
      (if base ≥ 4 then ["high-impact issue type"] else [])
    { o with
        urgency_score := some (min 5 (max 1 (base + sev + thermal)))
        urgency_reason :=
          some (if reasons = [] then "routine finding" else String.intercalate "; " reasons) }

/-- `_sources` of src/confidence.py lines 6-11: distinct trimmed non-empty
labels of `source` split on ";" (as a duplicate-free list; only its size is
used). -/
def sourcesOf (o : Obs) : List String :=
  if pyStrip o.source = "" then []
  else dedupFS (((pyStrip o.source).splitOn ";").map pyStrip |>.filter (fun s => s ≠ ""))

/-- The search text of `_content_based_confidence` (src/confidence.py lines
19-22): lower-cased stripped area, description and issue type joined by
single spaces. -/
def confText (o : Obs) : String :=
  (pyStrip o.area).toLower ++ " " ++ (pyStrip o.description).toLower
    ++ " " ++ (pyStrip (o.issue_type.getD "")).toLower

/-- `_content_based_confidence` of src/confidence.py lines 14-50. -/
def content_based_confidence (o : Obs) : Option (ℚ × String) :=
  if (strIn "visible" (confText o) || strIn "repeated" (confText o))
      && (strIn "damp" (confText o) || strIn "moisture" (confText o) || strIn "leak" (confText o)
          || strIn "damage" (confText o)) then
    some (17/20, "Clear visible or repeated finding")
  else if strIn "skirting" (confText o)
      && (strIn "damp" (confText o) || strIn "dampness" (confText o) || strIn "moisture" (confText o)) then
    some (17/20, "Skirting-level dampness clearly reported")
  else if strIn "parking" (confText o) && strIn "ceiling" (confText o)
      && (strIn "leak" (confText o) || strIn "leakage" (confText o) || strIn "water" (confText o)) then
    some (17/20, "Parking ceiling leakage clearly reported")
  else if strIn "moderate" (confText o)
      && (strIn "evidence" (confText o) || strIn "sign" (confText o) || strIn "damage" (confText o)) then
    some (13/20, "Moderate evidence")
  else if strIn "tile" (confText o) && (strIn "hollow" (confText o) || strIn "hollowness" (confText o)) then
    some (13/20, "Tile hollowness noted")
  else if strIn "unclear" (confText o) || strIn "vague" (confText o) then
    some (9/20, "Unclear or vague finding")
  else if (strIn "damage" (confText o)
            && !(strIn "moisture" (confText o) || strIn "leak" (confText o) || strIn "crack" (confText o)
                 || strIn "structural" (confText o) || strIn "water" (confText o)))
          && (strIn "bedroom" (confText o) || strIn "bathroom" (confText o) || strIn "room" (confText o)
              || strIn "ceiling" (confText o) || strIn "wall" (confText o)) then
    some (9/20, "Insufficient diagnostic detail for generic damage")
  else none

/-- The conflict set of src/confidence.py lines 62-70: (stripped area,
first 80 characters of the stripped description) of both snapshots of every
conflict. -/
def conflictPairs (conflicts : List Conflict) : List (String × String) :=
  conflicts.foldl
    (fun acc c =>
      acc ++ [(pyStrip c.observation_1.area, (pyStrip c.observation_1.description).take 80),
              (pyStrip c.observation_2.area, (pyStrip c.observation_2.description).take 80)])
    []

/-- `score_confidence` of src/confidence.py lines 53-97. -/
def score_confidence (observations : List Obs) (conflicts : List Conflict) : List Obs :=
  observations.map fun o =>
    let pr :=
      match content_based_confidence o with
      | some pr => pr
      | none =>
        if (pyStrip o.area, (pyStrip o.description).take 80) ∈ conflictPairs conflicts then
          (1/2, "Conflicting reports for this finding")
        else if 2 ≤ (sourcesOf o).length then
          (9/10, "Multiple sources agree (inspection and thermal)")
        else (7/10, "Single source")
    { o with confidence := some (round2 pr.1), confidence_reason := some pr.2 }

/-- The similarity predicate exactly as claim C2 words it: equal normalized
areas AND (prefix word sets overlap with Jaccard ratio — intersection over
union — strictly above 0.3, or one prefix is a substring of the other, or
both prefixes are empty).  Used to compare against the source-derived
`observations_similar`. -/
def claimSimilarJaccard (o1 o2 : Obs) : Bool :=
  decide (normalize_area o1.area = normalize_area o2.area) &&
    (decide ((if (dedupFS (wordSet (simKey o1) ++ wordSet (simKey o2))).isEmpty then (0 : ℚ)
              else (interCount (wordSet (simKey o1)) (wordSet (simKey o2)) : ℚ)
                    / ((dedupFS (wordSet (simKey o1) ++ wordSet (simKey o2))).length : ℚ)) > 3/10)
      || strIn (simKey o1) (simKey o2) || strIn (simKey o2) (simKey o1)
      || (decide (simKey o1 = "") && decide (simKey o2 = "")))

/-- The amended claim-C2 similarity predicate: as the claim, but with the
overlap ratio `|intersection| / max(|words1|, |words2|)` actually used by the
source in place of the Jaccard ratio. -/
def amendedSimilar (o1 o2 : Obs) : Bool :=
  decide (normalize_area o1.area = normalize_area o2.area) &&
    (decide (overlapRatio (simKey o1) (simKey o2) > 3/10)
      || strIn (simKey o1) (simKey o2) || strIn (simKey o2) (simKey o1)
      || (decide (simKey o1 = "") && decide (simKey o2 = "")))

/-- Forget the fields written by the clustering stage (frame comparison). -/
def eraseCluster (o : Obs) : Obs := { o with cluster_id := none, cluster_label := none }

/-- Forget the fields written by the urgency stage (frame comparison). -/
def eraseUrgency (o : Obs) : Obs := { o with urgency_score := none, urgency_reason := none }

/-- Forget the fields written by the confidence stage (frame comparison). -/
def eraseConfidence (o : Obs) : Obs := { o with confidence := none, confidence_reason := none }

/-- Inspection observation of the end-to-end scenario of claim C3. -/
def obsInspDamp : Obs :=
  { area := "Bathroom ceiling", description := "Visible damp staining on ceiling" }

/-- Thermal observation of the end-to-end scenario of claim C3. -/
def obsThermMoist : Obs :=
  { area := "bathroom ceiling", description := "moderate moisture evidence" }

/-- Inspection observation for the conflict scenarios: similar (same area and
issue type) to `obsMoistB` but with a disjoint description. -/
def obsMoistA : Obs :=
  { area := "kitchen", issue_type := some "moisture", description := "alpha beta" }

/-- Thermal observation conflicting with `obsMoistA`. -/
def obsMoistB : Obs :=
  { area := "kitchen", issue_type := some "moisture", description := "gamma delta" }

/-- Observation whose prefix word set is {aa, bb, cc}. -/
def obsWordsA : Obs := { area := "kitchen", description := "aa bb cc" }

/-- Observation whose prefix word set is {cc, dd, ee}: exactly one shared
word, so the source ratio is 1/3 > 0.3 while the Jaccard ratio is
1/5 ≤ 0.3. -/
def obsWordsB : Obs := { area := "kitchen", description := "cc dd ee" }

/-- Inspection observation that a thermal duplicate merges into. -/
def obsDampPlain : Obs := { area := "k", description := "damp wall" }

/-- Thermal duplicate of `obsDampPlain`, carrying an extractor-supplied
source value that the merger must ignore. -/
def obsDampJunk : Obs := { area := "k", description := "damp wall", source := "junk" }

/-- A Celsius reading for the claim C4/C5 temperature scenarios. -/
def readingC (loc v : String) : TempReading :=
  { location := loc, value := some v, unit := "°C" }

/-- Indexing into a mapped list with in-range index. -/
theorem getD_map_of_lt {α β : Type} [Inhabited α] [Inhabited β]
    (l : List α) (f : α → β) (i : ℕ) (h : i < l.length) :
    (l.map f).getD i default = f (l.getD i default) := by
  induction l generalizing i with
  | nil => simp at h
  | cons a t ih =>
    cases i with
    | zero => rfl
    | succ n => simpa using ih n (by simpa using h)

/-- The empty character list is a sub-list of every list. -/
theorem isSubChars_nil_needle (l : List Char) : isSubChars [] l = true := by
  induction l with
  | nil => rfl
  | cons c t ih => simp [isSubChars, List.isPrefixOf]

/-- Python `"" in s` is always true. -/
theorem strIn_empty_left (s : String) : strIn "" s = true := by
  unfold strIn
  exact isSubChars_nil_needle _

/-- The merged record's source is the source-combination of the two inputs. -/
theorem merge_observations_source (s n : Obs) :
    (merge_observations s n).source = combineSource s.source n.source := rfl

/-- C1 counterexample: for the concrete similar-and-conflicting pair
`obsMoistA` (inspection) / `obsMoistB` (thermal), `merge_extractions` records
one conflict but leaves the seen entry's description and source untouched —
the field-combination step is NOT performed, contradicting the claim that it
still happens after a conflict is recorded. -/
theorem C1_counterexample :
    (merge_extractions (some { observations := [obsMoistA] })
        (some { observations := [obsMoistB] })).2.1.length = 1
    ∧ ((merge_extractions (some { observations := [obsMoistA] })
        (some { observations := [obsMoistB] })).1.observations.getD 0 default).description
        = "alpha beta"
    ∧ ((merge_extractions (some { observations := [obsMoistA] })
        (some { observations := [obsMoistB] })).1.observations.getD 0 default).source
        = "Inspection Report"
    ∧ "alpha beta" ≠ "alpha beta. Thermal/Inspection: gamma delta"
    ∧ "Inspection Report" ≠ "Inspection Report; Thermal Report" := by
  refine ⟨by with_unfolding_all decide, by with_unfolding_all decide, by with_unfolding_all decide, by with_unfolding_all decide, by with_unfolding_all decide⟩

/-- C1 (amended): in the dedup scan of `add_observations`, for a pair judged
similar the conflict test decides the branch — if they conflict, a Conflict
record is produced and the seen entry is left unchanged (no field
combination); the field-combination step runs only when they do not
conflict. -/
theorem C1_conflict_skips_field_merge (obs s : Obs) (rest : List Obs)
    (hsim : observations_similar obs s = true) :
    (has_conflict obs s = true →
        scanSeen obs (s :: rest) = some (s :: rest, some (mkConflict s obs)))
    ∧ (has_conflict obs s = false →
        scanSeen obs (s :: rest) = some (merge_observations s obs :: rest, none)) := by
  constructor <;> intro hc <;> simp [scanSeen, hsim, hc]

/-- C1 witness: the dichotomy applied to the concrete conflicting pair. -/
theorem C1_conflict_skips_field_merge_witness :
    observations_similar obsMoistB obsMoistA = true
    ∧ has_conflict obsMoistB obsMoistA = true
    ∧ scanSeen obsMoistB [obsMoistA]
        = some ([obsMoistA], some (mkConflict obsMoistA obsMoistB)) :=
  ⟨by with_unfolding_all decide, by with_unfolding_all decide,
   (C1_conflict_skips_field_merge obsMoistB obsMoistA [] (by with_unfolding_all decide)).1 (by with_unfolding_all decide)⟩

/-- C3 counterexample: the two scenario observations are NOT merged — the
output has two canonical observations, not one. -/
theorem C3_counterexample :
    (merge_extractions (some { observations := [obsInspDamp] })
        (some { observations := [obsThermMoist] })).1.observations.length = 2
    ∧ (2 : ℕ) ≠ 1 := by
  refine ⟨by with_unfolding_all decide, by with_unfolding_all decide⟩

/-- C3 (amended): the inspection and thermal scenario observations stay
separate (their prefixes share no word, so the overlap ratio is 0 and
neither is a substring of the other), and confidence scoring then gives the
inspection observation 0.85 via the "visible" content override and the
thermal observation 0.65 via the moderate-evidence override. -/
theorem C3_two_observations_confidences :
    observations_similar { obsThermMoist with source := "Thermal Report" }
        { obsInspDamp with source := "Inspection Report" } = false
    ∧ (merge_extractions (some { observations := [obsInspDamp] })
        (some { observations := [obsThermMoist] })).1.observations.length = 2
    ∧ ((score_confidence
          (merge_extractions (some { observations := [obsInspDamp] })
            (some { observations := [obsThermMoist] })).1.observations
          (merge_extractions (some { observations := [obsInspDamp] })
            (some { observations := [obsThermMoist] })).2.1).getD 0 default).confidence
        = some (17/20)
    ∧ ((score_confidence
          (merge_extractions (some { observations := [obsInspDamp] })
            (some { observations := [obsThermMoist] })).1.observations
          (merge_extractions (some { observations := [obsInspDamp] })
            (some { observations := [obsThermMoist] })).2.1).getD 0 default).confidence_reason
        = some "Clear visible or repeated finding"
    ∧ ((score_confidence
          (merge_extractions (some { observations := [obsInspDamp] })
            (some { observations := [obsThermMoist] })).1.observations
          (merge_extractions (some { observations := [obsInspDamp] })
            (some { observations := [obsThermMoist] })).2.1).getD 1 default).confidence
        = some (13/20) := by
  refine ⟨by with_unfolding_all decide, by with_unfolding_all decide, by with_unfolding_all decide, by with_unfolding_all decide, by with_unfolding_all decide⟩

/-- C5 counterexample: with Kitchen "22" and Bedroom "33" the median
reference is 27.5, so the Bedroom delta is +5.5, not the +6 the claim
states. -/
theorem C5_counterexample :
    ((compute_temperature_analysis [readingC "Kitchen" "22", readingC "Bedroom" "33"] 5).readings.getD
        1 default).delta_c = 11/2
    ∧ (11/2 : ℚ) ≠ 6 := by
  refine ⟨by with_unfolding_all decide, by with_unfolding_all decide⟩

/-- C5 (amended): Kitchen "22" / Bedroom "30" gives reference 26 with deltas
−4 and +4, neither an anomaly; Bedroom "32" gives reference 27 and Bedroom
delta +5, not an anomaly (the boundary is strict); Bedroom "33" gives
reference 27.5 and Bedroom delta +5.5, flagged anomaly. -/
theorem C5_scenarios :
    ((compute_temperature_analysis [readingC "Kitchen" "22", readingC "Bedroom" "30"] 5).reference_value
        = some 26
      ∧ (compute_temperature_analysis [readingC "Kitchen" "22", readingC "Bedroom" "30"] 5).readings.map
          (fun r => (r.location, r.delta_c, r.anomaly))
        = [("Kitchen", -4, false), ("Bedroom", 4, false)])
    ∧ ((compute_temperature_analysis [readingC "Kitchen" "22", readingC "Bedroom" "32"] 5).reference_value
        = some 27
      ∧ ((compute_temperature_analysis [readingC "Kitchen" "22", readingC "Bedroom" "32"] 5).readings.getD
          1 default).delta_c = 5
      ∧ ((compute_temperature_analysis [readingC "Kitchen" "22", readingC "Bedroom" "32"] 5).readings.getD
          1 default).anomaly = false)
    ∧ ((compute_temperature_analysis [readingC "Kitchen" "22", readingC "Bedroom" "33"] 5).reference_value
        = some (55/2)
      ∧ ((compute_temperature_analysis [readingC "Kitchen" "22", readingC "Bedroom" "33"] 5).readings.getD
          1 default).delta_c = 11/2
      ∧ ((compute_temperature_analysis [readingC "Kitchen" "22", readingC "Bedroom" "33"] 5).readings.getD
          1 default).anomaly = true) := by
  refine ⟨⟨by with_unfolding_all decide, by with_unfolding_all decide⟩, ⟨by with_unfolding_all decide, by with_unfolding_all decide, by with_unfolding_all decide⟩, by with_unfolding_all decide, by with_unfolding_all decide, by with_unfolding_all decide⟩

/-- C2 counterexample: for word sets {aa, bb, cc} and {cc, dd, ee} over the
same area, the source ratio is 1/3 > 0.3 so `observations_similar` is true,
but the Jaccard ratio is 1/5 ≤ 0.3 and neither prefix is a substring of the
other, so the claim's predicate is false. -/
theorem C2_counterexample :
    observations_similar obsWordsA obsWordsB = true
    ∧ claimSimilarJaccard obsWordsA obsWordsB = false := by
  refine ⟨by with_unfolding_all decide, by with_unfolding_all decide⟩

/-- C2 (amended): `observations_similar` is equivalent to the claim's
predicate with the Jaccard ratio replaced by the overlap ratio
`|intersection| / max(|words1|, |words2|)` the source actually computes
(prefixes always truncated to 50 characters; an empty prefix is a substring
of the other, which also covers the claim's both-empty disjunct). -/
theorem C2_similar_iff_amended (o1 o2 : Obs) :
    observations_similar o1 o2 = amendedSimilar o1 o2 := by
  unfold observations_similar amendedSimilar
  by_cases ha : normalize_area o1.area = normalize_area o2.area
  · rw [if_neg (not_not_intro ha)]
    by_cases h1 : simKey o1 = ""
    · rw [if_pos (Or.inl h1)]
      have hs : strIn (simKey o1) (simKey o2) = true := by
        rw [h1]; exact strIn_empty_left _
      simp [ha, hs]
    · by_cases h2 : simKey o2 = ""
      · rw [if_pos (Or.inr h2)]
        have hs : strIn (simKey o2) (simKey o1) = true := by
          rw [h2]; exact strIn_empty_left _
        simp [ha, hs]
      · rw [if_neg (by simp [h1, h2])]
        simp [ha, h1, h2]
  · rw [if_pos ha]
    simp [ha]

/-- C4: for every reading list with at least one parseable value, the
reference is the median of the parsed Celsius-normalised values (even count
averaging the two middle elements, per `medianValue`), converted back into
the unit of the first parsed reading; Celsius inputs [10, 20, 30] give
reference 20 and [10, 20] give reference 15. -/
theorem C4_reference_is_median :
    (∀ (temps : List TempReading) (threshold : ℚ), parsedReadings temps ≠ [] →
        (compute_temperature_analysis temps threshold).reference_value
          = some (round2 (celsius_to_original
              (medianValue ((parsedReadings temps).map (fun p => p.value_c)))
              ((parsedReadings temps).headD default).unit))
        ∧ (compute_temperature_analysis temps threshold).reference_unit
          = some ((parsedReadings temps).headD default).unit)
    ∧ (compute_temperature_analysis
        [readingC "A" "10", readingC "B" "20", readingC "C" "30"] 5).reference_value = some 20
    ∧ (compute_temperature_analysis
        [readingC "A" "10", readingC "B" "20"] 5).reference_value = some 15 := by
  refine ⟨?_, by with_unfolding_all decide, by with_unfolding_all decide⟩
  intro temps th h
  simp only [compute_temperature_analysis]
  rw [if_neg h]
  exact ⟨rfl, rfl⟩

/-- C4 witness: the general median statement applied to the concrete
Celsius inputs [10, 20, 30]. -/
theorem C4_reference_is_median_witness :
    parsedReadings [readingC "A" "10", readingC "B" "20", readingC "C" "30"] ≠ []
    ∧ ((compute_temperature_analysis
          [readingC "A" "10", readingC "B" "20", readingC "C" "30"] 5).reference_value
        = some (round2 (celsius_to_original
            (medianValue ((parsedReadings
                [readingC "A" "10", readingC "B" "20", readingC "C" "30"]).map
                (fun p => p.value_c)))
            ((parsedReadings
                [readingC "A" "10", readingC "B" "20", readingC "C" "30"]).headD default).unit))
      ∧ (compute_temperature_analysis
          [readingC "A" "10", readingC "B" "20", readingC "C" "30"] 5).reference_unit
        = some ((parsedReadings
            [readingC "A" "10", readingC "B" "20", readingC "C" "30"]).headD default).unit) :=
  ⟨by with_unfolding_all decide,
   C4_reference_is_median.1 [readingC "A" "10", readingC "B" "20", readingC "C" "30"] 5
     (by with_unfolding_all decide)⟩

/-- C6: `score_urgency` sets every observation's urgency score to
clamp(issue-type base + severity boost + thermal boost, 1, 5), an integer
always within [1, 5], for arbitrary inputs. -/
theorem C6_urgency_clamped (obss : List Obs) (sevs : List String)
    (ta : Option TempAnalysis) (i : ℕ) (h : i < obss.length) :
    ((score_urgency obss sevs ta).getD i default).urgency_score
      = some (min 5 (max 1 (urgency_from_issue_type (obss.getD i default)
          + urgency_from_severity (obss.getD i default) sevs
          + thermal_anomaly_boost (obss.getD i default) ta)))
    ∧ ∀ u : ℤ, ((score_urgency obss sevs ta).getD i default).urgency_score = some u →
        1 ≤ u ∧ u ≤ 5 := by
  have key : ((score_urgency obss sevs ta).getD i default).urgency_score
      = some (min 5 (max 1 (urgency_from_issue_type (obss.getD i default)
          + urgency_from_severity (obss.getD i default) sevs
          + thermal_anomaly_boost (obss.getD i default) ta))) := by
    unfold score_urgency
    rw [getD_map_of_lt obss _ i h]
  refine ⟨key, ?_⟩
  intro u hu
  rw [key] at hu
  injection hu with h2
  subst h2
  constructor <;> [exact le_min (by norm_num) (le_max_left 1 _); exact min_le_left 5 _]

/-- C6 witness: a fully empty observation with no severity mentions and no
temperature analysis still gets the clamped score. -/
theorem C6_urgency_clamped_witness :
    (0 : ℕ) < ([({} : Obs)]).length
    ∧ (((score_urgency [{}] [] none).getD 0 default).urgency_score
        = some (min 5 (max 1 (urgency_from_issue_type (([({} : Obs)]).getD 0 default)
            + urgency_from_severity (([({} : Obs)]).getD 0 default) []
            + thermal_anomaly_boost (([({} : Obs)]).getD 0 default) none)))
      ∧ ∀ u : ℤ, ((score_urgency [{}] [] none).getD 0 default).urgency_score = some u →
          1 ≤ u ∧ u ≤ 5) :=
  ⟨by decide, C6_urgency_clamped [{}] [] none 0 (by decide)⟩

/-- A content-based override, when present, is one of 0.85, 0.65, 0.45. -/
theorem content_vals (o : Obs) (pr : ℚ × String)
    (h : content_based_confidence o = some pr) :
    pr.1 = 17/20 ∨ pr.1 = 13/20 ∨ pr.1 = 9/20 := by
  unfold content_based_confidence at h
  split_ifs at h
  all_goals (try (injection h with h2; subst h2))
  all_goals simp

/-- C7: when no content override matches, confidence is 0.5 for observations
in the conflict set, else 0.9 with at least two distinct source labels, else
0.7; and every assigned confidence lies in [0, 1] and is a fixed point of
2-decimal rounding. -/
theorem C7_confidence_rules (obss : List Obs) (conflicts : List Conflict) (i : ℕ)
    (h : i < obss.length) :
    (content_based_confidence (obss.getD i default) = none →
        ((score_confidence obss conflicts).getD i default).confidence
          = some (if (pyStrip (obss.getD i default).area,
                      (pyStrip (obss.getD i default).description).take 80)
                      ∈ conflictPairs conflicts then 1/2
                  else if 2 ≤ (sourcesOf (obss.getD i default)).length then 9/10
                  else 7/10))
    ∧ ∀ c : ℚ, ((score_confidence obss conflicts).getD i default).confidence = some c →
        0 ≤ c ∧ c ≤ 1 ∧ round2 c = c := by
  have key : ((score_confidence obss conflicts).getD i default).confidence
      = some (round2 (match content_based_confidence (obss.getD i default) with
          | some pr => pr
          | none =>
            if (pyStrip (obss.getD i default).area,
                (pyStrip (obss.getD i default).description).take 80)
                ∈ conflictPairs conflicts then
              (1/2, "Conflicting reports for this finding")
            else if 2 ≤ (sourcesOf (obss.getD i default)).length then
              (9/10, "Multiple sources agree (inspection and thermal)")
            else (7/10, "Single source")).1) := by
    unfold score_confidence
    rw [getD_map_of_lt obss _ i h]
  constructor
  · intro hov
    rw [key, hov]
    split_ifs <;> with_unfolding_all decide
  · intro c hc
    rw [key] at hc
    cases hov : content_based_confidence (obss.getD i default) with
    | none =>
      rw [hov] at hc
      split_ifs at hc
      all_goals (injection hc with h2; subst h2; with_unfolding_all decide)
    | some pr =>
      rw [hov] at hc
      injection hc with h2
      subst h2
      rcases content_vals (obss.getD i default) pr hov with h1 | h1 | h1 <;>
        rw [h1] <;> with_unfolding_all decide

/-- C7 witness: a single-source observation with no override, no conflicts. -/
theorem C7_confidence_rules_witness :
    (0 : ℕ) < ([obsMoistA]).length
    ∧ ((content_based_confidence (([obsMoistA]).getD 0 default) = none →
        ((score_confidence [obsMoistA] []).getD 0 default).confidence
          = some (if (pyStrip (([obsMoistA]).getD 0 default).area,
                      (pyStrip (([obsMoistA]).getD 0 default).description).take 80)
                      ∈ conflictPairs [] then 1/2
                  else if 2 ≤ (sourcesOf (([obsMoistA]).getD 0 default)).length then 9/10
                  else 7/10))
      ∧ ∀ c : ℚ, ((score_confidence [obsMoistA] []).getD 0 default).confidence = some c →
          0 ≤ c ∧ c ≤ 1 ∧ round2 c = c) :=
  ⟨by decide, C7_confidence_rules [obsMoistA] [] 0 (by decide)⟩

/-- C8: after clustering, every observation carries a cluster id and label;
the id is "cluster_N" where N is 1 plus the position of the observation's
grouping key in the first-seen key order, so identical input always yields
identical assignment and ordering. -/
theorem C8_cluster_ids_first_seen (obss : List Obs) (i : ℕ) (h : i < obss.length) :
    (cluster_observations obss).1.length = obss.length
    ∧ ((cluster_observations obss).1.getD i default).cluster_id
        = some ("cluster_" ++ toString
            ((dedupFS (obss.map clusterKey)).findIdx
                (fun k => decide (k = clusterKey (obss.getD i default))) + 1))
    ∧ (((cluster_observations obss).1.getD i default).cluster_label).isSome = true := by
  have hne : obss ≠ [] := by rintro rfl; simp at h
  refine ⟨?_, ?_, ?_⟩
  · simp [cluster_observations, hne]
  · simp only [cluster_observations, hne, if_false]
    rw [getD_map_of_lt obss _ i h]
  · simp only [cluster_observations, hne, if_false]
    rw [getD_map_of_lt obss _ i h]
    rfl

/-- C8 witness: the id/label assignment on a concrete three-observation
list whose first and third observations share a grouping key. -/
theorem C8_cluster_ids_first_seen_witness :
    (1 : ℕ) < ([obsMoistA, obsInspDamp, obsMoistB]).length
    ∧ ((cluster_observations [obsMoistA, obsInspDamp, obsMoistB]).1.length
        = ([obsMoistA, obsInspDamp, obsMoistB]).length
      ∧ ((cluster_observations [obsMoistA, obsInspDamp, obsMoistB]).1.getD 1 default).cluster_id
          = some ("cluster_" ++ toString
              ((dedupFS (([obsMoistA, obsInspDamp, obsMoistB]).map clusterKey)).findIdx
                  (fun k => decide (k = clusterKey (([obsMoistA, obsInspDamp, obsMoistB]).getD 1 default))) + 1))
      ∧ (((cluster_observations [obsMoistA, obsInspDamp, obsMoistB]).1.getD 1 default).cluster_label).isSome
          = true) :=
  ⟨by decide, C8_cluster_ids_first_seen [obsMoistA, obsInspDamp, obsMoistB] 1 (by decide)⟩

/-- C9: clustering, urgency scoring and confidence scoring each return a new
list of the same length with the observation at each position unchanged
except for the fields the stage itself writes, so positional indices stay
valid through the pipeline. -/
theorem C9_stages_preserve_order (obss : List Obs) (sevs : List String)
    (ta : Option TempAnalysis) (conflicts : List Conflict) (i : ℕ) (h : i < obss.length) :
    ((cluster_observations obss).1.length = obss.length
      ∧ eraseCluster ((cluster_observations obss).1.getD i default)
          = eraseCluster (obss.getD i default))
    ∧ ((score_urgency obss sevs ta).length = obss.length
      ∧ eraseUrgency ((score_urgency obss sevs ta).getD i default)
          = eraseUrgency (obss.getD i default))
    ∧ ((score_confidence obss conflicts).length = obss.length
      ∧ eraseConfidence ((score_confidence obss conflicts).getD i default)
          = eraseConfidence (obss.getD i default)) := by
  have hne : obss ≠ [] := by rintro rfl; simp at h
  refine ⟨⟨?_, ?_⟩, ⟨?_, ?_⟩, ⟨?_, ?_⟩⟩
  · simp [cluster_observations, hne]
  · simp only [cluster_observations, hne, if_false]
    rw [getD_map_of_lt obss _ i h]
    rfl
  · simp [score_urgency]
  · unfold score_urgency
    rw [getD_map_of_lt obss _ i h]
    rfl
  · simp [score_confidence]
  · unfold score_confidence
    rw [getD_map_of_lt obss _ i h]
    rfl

/-- C9 witness: the frame property on a concrete two-observation list. -/
theorem C9_stages_preserve_order_witness :
    (0 : ℕ) < ([obsInspDamp, obsThermMoist]).length
    ∧ (((cluster_observations [obsInspDamp, obsThermMoist]).1.length
          = ([obsInspDamp, obsThermMoist]).length
        ∧ eraseCluster ((cluster_observations [obsInspDamp, obsThermMoist]).1.getD 0 default)
            = eraseCluster (([obsInspDamp, obsThermMoist]).getD 0 default))
      ∧ ((score_urgency [obsInspDamp, obsThermMoist] ["severe"] none).length
          = ([obsInspDamp, obsThermMoist]).length
        ∧ eraseUrgency ((score_urgency [obsInspDamp, obsThermMoist] ["severe"] none).getD 0 default)
            = eraseUrgency (([obsInspDamp, obsThermMoist]).getD 0 default))
      ∧ ((score_confidence [obsInspDamp, obsThermMoist] []).length
          = ([obsInspDamp, obsThermMoist]).length
        ∧ eraseConfidence ((score_confidence [obsInspDamp, obsThermMoist] []).getD 0 default)
            = eraseConfidence (([obsInspDamp, obsThermMoist]).getD 0 default))) :=
  ⟨by decide, C9_stages_preserve_order [obsInspDamp, obsThermMoist] ["severe"] none [] 0 (by decide)⟩

/-- Sources of the seen list are preserved by the dedup scan, given that
merging with the incoming observation preserves them. -/
theorem scanSeen_sources (P : String → Prop) (obs : Obs)
    (hm : ∀ s : Obs, P s.source → P ((merge_observations s obs).source)) :
    ∀ (seen l : List Obs) (c : Option Conflict),
      (∀ o ∈ seen, P o.source) → scanSeen obs seen = some (l, c) →
        ∀ o ∈ l, P o.source := by
  intro seen
  induction seen with
  | nil => intro l c _ hscan; simp [scanSeen] at hscan
  | cons s rest ih =>
    intro l c hall hscan
    simp only [scanSeen] at hscan
    by_cases hsim : observations_similar obs s = true
    · rw [if_pos hsim] at hscan
      by_cases hc : has_conflict obs s = true
      · rw [if_pos hc] at hscan
        injection hscan with h1
        injection h1 with h1 h2
        subst h1
        exact hall
      · rw [if_neg hc] at hscan
        injection hscan with h1
        injection h1 with h1 h2
        subst h1
        intro o ho
        rcases List.mem_cons.1 ho with rfl | ho2
        · exact hm s (hall s (List.mem_cons_self s rest))
        · exact hall o (List.mem_cons_of_mem s ho2)
    · rw [if_neg hsim] at hscan
      cases hrec : scanSeen obs rest with
      | none => rw [hrec] at hscan; exact absurd hscan (by simp)
      | some p =>
        rw [hrec] at hscan
        injection hscan with h1
        injection h1 with h1 h2
        subst h1
        intro o ho
        rcases List.mem_cons.1 ho with rfl | ho2
        · exact hall o (List.mem_cons_self o rest)
        · exact ih p.1 p.2 (fun o ho => hall o (List.mem_cons_of_mem s ho)) (by rw [hrec]) o ho2

/-- One `add_observations` iteration keeps every seen source satisfying `P`,
provided the label satisfies `P` and merging a label-sourced observation
preserves `P`. -/
theorem addObs_sources (P : String → Prop) (label : String) (hlabel : P label)
    (hm : ∀ (s o : Obs), o.source = label → P s.source → P ((merge_observations s o).source)) :
    ∀ (st : MergeState) (obs0 : Obs), (∀ o ∈ st.seen, P o.source) →
      ∀ o ∈ (addObs label st obs0).seen, P o.source := by
  intro st obs0 hall o ho
  cases hscan : scanSeen { obs0 with source := label } st.seen with
  | none =>
    have he : addObs label st obs0
        = { seen := st.seen ++ [{ obs0 with source := label }], conflicts := st.conflicts } := by
      unfold addObs; rw [hscan]
    rw [he] at ho
    rcases List.mem_append.1 ho with ho1 | ho2
    · exact hall o ho1
    · rcases List.mem_singleton.1 ho2 with rfl
      exact hlabel
  | some p =>
    cases p with
    | mk seen2 copt =>
      have hseen : ∀ o ∈ seen2, P o.source :=
        scanSeen_sources P { obs0 with source := label }
          (fun s hp => hm s { obs0 with source := label } rfl hp)
          st.seen seen2 copt hall hscan
      cases copt with
      | none =>
        have he : addObs label st obs0 = { seen := seen2, conflicts := st.conflicts } := by
          unfold addObs; rw [hscan]
        rw [he] at ho
        exact hseen o ho
      | some c =>
        have he : addObs label st obs0
            = { seen := seen2, conflicts := st.conflicts ++ [c] } := by
          unfold addObs; rw [hscan]
        rw [he] at ho
        exact hseen o ho

/-- Folding a whole document list through `addObs` keeps every seen source
satisfying `P`. -/
theorem addAll_sources (P : String → Prop) (label : String) (hlabel : P label)
    (hm : ∀ (s o : Obs), o.source = label → P s.source → P ((merge_observations s o).source)) :
    ∀ (obss : List Obs) (st : MergeState), (∀ o ∈ st.seen, P o.source) →
      ∀ o ∈ (addAll label st obss).seen, P o.source := by
  intro obss
  induction obss with
  | nil => intro st hall; simpa [addAll] using hall
  | cons x xs ih =>
    intro st hall
    have h1 := addObs_sources P label hlabel hm st x hall
    have h2 := ih (addObs label st x) h1
    simpa [addAll] using h2

/-- Merging two inspection-labelled observations keeps the label. -/
theorem mergeKeepsInspection (s o : Obs) (hnew : o.source = "Inspection Report")
    (hseen : s.source = "Inspection Report") :
    (merge_observations s o).source = "Inspection Report" := by
  rw [merge_observations_source, hseen, hnew]
  with_unfolding_all decide

/-- Merging a thermal-labelled observation into a seen entry whose source is
one of the three label forms yields one of the three label forms. -/
theorem mergeKeepsLabels (s o : Obs) (hnew : o.source = "Thermal Report")
    (hseen : s.source = "Inspection Report" ∨ s.source = "Thermal Report"
      ∨ s.source = "Inspection Report; Thermal Report") :
    (merge_observations s o).source = "Inspection Report"
      ∨ (merge_observations s o).source = "Thermal Report"
      ∨ (merge_observations s o).source = "Inspection Report; Thermal Report" := by
  rw [merge_observations_source, hnew]
  rcases hseen with h1 | h1 | h1 <;> rw [h1]
  · right; right; with_unfolding_all decide
  · right; left; with_unfolding_all decide
  · right; right; with_unfolding_all decide

/-- After the inspection phase every seen source is the inspection label. -/
theorem inspectionPhase_sources (d0 : ExtractData) :
    ∀ o ∈ (addAll "Inspection Report" ⟨[], []⟩ d0.observations).seen,
      o.source = "Inspection Report" := by
  refine addAll_sources (fun src => src = "Inspection Report") "Inspection Report" rfl
    ?_ d0.observations ⟨[], []⟩ ?_
  · intro s o hnew hseen
    exact mergeKeepsInspection s o hnew hseen
  · intro o2 ho2
    simp at ho2

/-- C10 counterexample: a thermal duplicate folded into an inspection
observation leaves the canonical observation (which was not folded into an
earlier one) with source "Inspection Report; Thermal Report", not the bare
label the claim states. -/
theorem C10_counterexample :
    ((merge_extractions (some { observations := [obsDampPlain] })
        (some { observations := [obsDampJunk] })).1.observations.getD 0 default).source
      = "Inspection Report; Thermal Report"
    ∧ "Inspection Report; Thermal Report" ≠ "Inspection Report" := by
  refine ⟨by with_unfolding_all decide, by with_unfolding_all decide⟩

/-- C10 (amended): the merger overwrites each incoming observation's source
with its document label before any similarity check (the extractor-supplied
source can never influence the result), and every output observation's
source is "Inspection Report", "Thermal Report", or — when a thermal
observation was folded into an inspection one — the join
"Inspection Report; Thermal Report". -/
theorem C10_source_labels :
    (∀ (label : String) (st : MergeState) (o : Obs) (s : String),
        addObs label st { o with source := s } = addObs label st o)
    ∧ (∀ (insp therm : Option ExtractData),
        ∀ o ∈ (merge_extractions insp therm).1.observations,
          o.source = "Inspection Report" ∨ o.source = "Thermal Report"
            ∨ o.source = "Inspection Report; Thermal Report") := by
  constructor
  · intro label st o s
    cases o
    rfl
  · intro insp therm o ho
    cases therm with
    | none =>
      cases insp with
      | none =>
        have he : (merge_extractions none none).1.observations = [] := rfl
        rw [he] at ho
        simp at ho
      | some d0 =>
        have he : (merge_extractions (some d0) none).1.observations
            = (addAll "Inspection Report" ⟨[], []⟩ d0.observations).seen := rfl
        rw [he] at ho
        exact Or.inl (inspectionPhase_sources d0 o ho)
    | some d =>
      cases insp with
      | none =>
        have he : (merge_extractions none (some d)).1.observations
            = (addAll "Thermal Report" ⟨[], []⟩ d.observations).seen := rfl
        rw [he] at ho
        refine addAll_sources
          (fun src => src = "Inspection Report" ∨ src = "Thermal Report"
            ∨ src = "Inspection Report; Thermal Report") "Thermal Report"
          (Or.inr (Or.inl rfl)) mergeKeepsLabels d.observations ⟨[], []⟩ ?_ o ho
        intro o2 ho2
        simp at ho2
      | some d0 =>
        have he : (merge_extractions (some d0) (some d)).1.observations
            = (addAll "Thermal Report"
                (addAll "Inspection Report" ⟨[], []⟩ d0.observations) d.observations).seen := rfl
        rw [he] at ho
        exact addAll_sources
          (fun src => src = "Inspection Report" ∨ src = "Thermal Report"
            ∨ src = "Inspection Report; Thermal Report") "Thermal Report"
          (Or.inr (Or.inl rfl)) mergeKeepsLabels d.observations
          (addAll "Inspection Report" ⟨[], []⟩ d0.observations)
          (fun o2 ho2 => Or.inl (inspectionPhase_sources d0 o2 ho2)) o ho

/-- C10 witness: the source overwrite is insensitive to the extractor-supplied
source, and the concrete merged observation's source is one of the three
label forms. -/
theorem C10_source_labels_witness :
    (addObs "Inspection Report" ⟨[], []⟩ { obsDampPlain with source := "junk" }
        = addObs "Inspection Report" ⟨[], []⟩ obsDampPlain)
    ∧ (((merge_extractions (some { observations := [obsDampPlain] })
          (some { observations := [obsDampJunk] })).1.observations.getD 0 default).source
            = "Inspection Report"
        ∨ ((merge_extractions (some { observations := [obsDampPlain] })
          (some { observations := [obsDampJunk] })).1.observations.getD 0 default).source
            = "Thermal Report"
        ∨ ((merge_extractions (some { observations := [obsDampPlain] })
          (some { observations := [obsDampJunk] })).1.observations.getD 0 default).source
            = "Inspection Report; Thermal Report") :=
  ⟨C10_source_labels.1 "Inspection Report" ⟨[], []⟩ obsDampPlain "junk",
   C10_source_labels.2 (some { observations := [obsDampPlain] })
     (some { observations := [obsDampJunk] }) _
     (by with_unfolding_all decide)⟩
